import Mathlib

/-!
Shallow embedding of the FunFood backend (`src/Appifyours/backend/server.js`),
an Express/Mongoose e-commerce server with two document collections
(`Product`, `User`) and twelve HTTP routes.  JavaScript numbers are modelled
as `Int` (all arithmetic in the program is addition and multiplication of
request-supplied numbers), timestamps as `Nat`, and optional document fields
as `Option`.  Each route handler becomes a pure function from its inputs and
the database state to a response paired with the new state; the ambient
`Env` supplies the current time (`Date.now`) and a fresh store-generated id.
-/

set_option linter.unusedVariables false

namespace FunFood

/-- A cart line item (user schema `cart` entry, server.js lines 52-58). -/
structure CartItem where
  productId : String
  name : String
  price : Int
  quantity : Int
  addedAt : Nat
  deriving DecidableEq, Repr

/-- A snapshotted product inside an order (user schema lines 42-47): a cart
line item with `addedAt` dropped. -/
structure OrderProduct where
  productId : String
  name : String
  price : Int
  quantity : Int
  deriving DecidableEq, Repr

/-- An order record (user schema lines 40-51). -/
structure Order where
  orderId : String
  products : List OrderProduct
  total : Int
  status : String
  createdAt : Nat
  deriving DecidableEq, Repr

/-- Nested address subdocument (user schema lines 34-39). -/
structure Address where
  street : Option String
  city : Option String
  state : Option String
  zipCode : Option String
  deriving DecidableEq, Repr

/-- A `User` document (server.js lines 30-60).  `id` models the
store-generated `_id`. -/
structure User where
  id : Nat
  name : String
  email : String
  phone : Option String
  address : Option Address
  orders : List Order
  cart : List CartItem
  createdAt : Nat
  deriving DecidableEq, Repr

/-- A `Product` document (server.js lines 17-25). -/
structure Product where
  id : Nat
  name : String
  price : Int
  description : Option String
  image : Option String
  category : Option String
  inStock : Bool
  createdAt : Nat
  deriving DecidableEq, Repr

/-- The persistent state: the two document collections. -/
structure DB where
  products : List Product
  users : List User
  deriving DecidableEq, Repr

/-- Ambient per-request data: `Date.now()` and the next store-generated id. -/
structure Env where
  now : Nat
  fresh : Nat
  deriving DecidableEq, Repr

/-- A route `:id` parameter: either a well-formed ObjectId or a malformed
string, which Mongoose fails to cast (`CastError`). -/
inductive IdParam where
  | valid (id : Nat)
  | malformed (raw : String)
  deriving DecidableEq, Repr

/-- The CastError message Mongoose throws on a malformed ObjectId, surfaced
by the catch-all handler as `error.message`. -/
def castErr (raw : String) : String :=
  "Cast to ObjectId failed for value " ++ raw

/-- One item of the remote shop payload product list, as consumed by the
`/api/shop-data` handler (server.js lines 256-266).  String fields are
`Option` (absent vs present); `price` stands for the result of
`parseFloat(product.price)`, with `none` meaning `NaN` (unparseable or
absent). -/
structure RemoteProduct where
  name : Option String
  productName : Option String
  price : Option Int
  description : Option String
  image : Option String
  category : Option String
  deriving DecidableEq, Repr

/-- The `data` object of the remote shop payload. -/
structure ShopDataData where
  shopName : Option String
  appName : Option String
  gstNumber : Option String
  products : Option (List RemoteProduct)
  lastUpdated : Option String
  deriving DecidableEq, Repr

/-- The parsed remote shop payload: `{ success, data }`. -/
structure ShopData where
  success : Bool
  data : ShopDataData
  deriving DecidableEq, Repr

/-- The body delivered by the remote fetch: either text that is not valid
JSON (`JSON.parse` throws) or a parsed payload. -/
inductive RemoteBody where
  | malformed (raw : String)
  | parsed (sd : ShopData)
  deriving DecidableEq, Repr

/-- Outcome of the refresher's HTTP request: a transport error
(the request `error` event) or a response body. -/
inductive RemoteResult where
  | netError
  | response (body : RemoteBody)
  deriving DecidableEq, Repr

/-- The merged metadata object returned by a fully successful refresh
(server.js lines 269-278). -/
structure ShopMeta where
  shopName : Option String
  appName : Option String
  gstNumber : Option String
  products : List RemoteProduct
  lastUpdated : Option String
  deriving DecidableEq, Repr

/-- The static configuration payload of `/api/app-config`
(server.js lines 311-322). -/
structure AppConfig where
  adminId : String
  shopName : String
  lastUpdated : Nat
  searchEnabled : Bool
  cartEnabled : Bool
  userRegistrationEnabled : Bool
  orderTrackingEnabled : Bool
  deriving DecidableEq, Repr

/-- The JSON body of a response.  The `ok.*` constructors are the
`{success: true, data: T}` envelope at the various payload types, `errBody`
is `{success: false, error: msg}`, and `healthBody` is the non-enveloped
`{status: OK, timestamp}` object of `/health`. -/
inductive RespBody where
  | okProducts (ps : List Product)
  | okProduct (p : Product)
  | okUser (u : User)
  | okCart (c : List CartItem)
  | okOrder (o : Order)
  | okOrders (os : List Order)
  | okShopData (m : ShopMeta)
  | okShopFallback (d : ShopDataData)
  | okConfig (c : AppConfig)
  | errBody (msg : String)
  | healthBody (ts : Nat)
  deriving DecidableEq, Repr

/-- An HTTP response: status code and JSON body. -/
structure Resp where
  status : Nat
  body : RespBody
  deriving DecidableEq, Repr

/-- True when the body is one of the two envelope shapes
`{success: true, data}` / `{success: false, error}`. -/
def envelopeShaped : RespBody → Bool
  | .healthBody _ => false
  | _ => true

/-- True when the body is the failure envelope `{success: false, error}`. -/
def isFailureBody : RespBody → Bool
  | .errBody _ => true
  | _ => false

/-- JavaScript falsiness of an optional string: absent (`undefined`) or the
empty string. -/
def falsy : Option String → Bool
  | none => true
  | some s => s == ""

/-- JavaScript `a || b` on optional strings. -/
def jsOr (a b : Option String) : Option String :=
  if falsy a then b else a

/-- JavaScript `a || d` on an optional string against a string default. -/
def jsOrD (a : Option String) (d : String) : String :=
  if falsy a then d else a.getD d

/-- Characters of the lower-cased string; basis of the case-insensitive
match of the `$regex ... $options: i` search. -/
def lowerChars (s : String) : List Char := s.data.map Char.toLower

/-- Substring occurrence test on character lists. -/
def hasSub (pat : List Char) : List Char → Bool
  | [] => pat.isEmpty
  | c :: cs => pat.isPrefixOf (c :: cs) || hasSub pat cs

/-- Case-insensitive match of the query against a field, modelling the
`$regex query, $options: i` condition for plain-text queries as
case-insensitive substring containment. -/
def ciMatch (field query : String) : Bool :=
  hasSub (lowerChars query) (lowerChars field)

/-- The same match on an optional field: an absent field never matches a
`$regex` condition. -/
def ciMatchOpt (field : Option String) (query : String) : Bool :=
  match field with
  | none => false
  | some s => ciMatch s query

/-- GET `/api/products` (server.js lines 67-74): all in-stock products. -/
def listProductsHandler (db : DB) : Resp × DB :=
  (⟨200, .okProducts (db.products.filter (fun p => p.inStock))⟩, db)

/-- GET `/api/products/:id` (server.js lines 77-87): `findById`, 404 when
absent; a malformed id makes `findById` throw a CastError which the catch
turns into a 500. -/
def getProductHandler (p : IdParam) (db : DB) : Resp × DB :=
  match p with
  | .malformed raw => (⟨500, .errBody (castErr raw)⟩, db)
  | .valid i =>
    match db.products.find? (fun x => x.id == i) with
    | none => (⟨404, .errBody "Product not found"⟩, db)
    | some prod => (⟨200, .okProduct prod⟩, db)

/-- The filter of GET `/api/products/search/:query` (server.js lines
93-100): `$or` over name, description and category, conjoined with
`inStock: true`. -/
def searchList (query : String) (db : DB) : List Product :=
  db.products.filter fun p =>
    (ciMatch p.name query || ciMatchOpt p.description query
      || ciMatchOpt p.category query) && p.inStock

/-- GET `/api/products/search/:query` (server.js lines 90-105). -/
def searchHandler (query : String) (db : DB) : Resp × DB :=
  (⟨200, .okProducts (searchList query db)⟩, db)

/-- POST `/api/users/register` (server.js lines 108-124): 400 when a user
with the email exists, otherwise create a user (empty cart and orders by
schema default) and append it to the collection. -/
def registerHandler (nm email : String) (ph : Option String)
    (ad : Option Address) (env : Env) (db : DB) : Resp × DB :=
  match db.users.find? (fun u => u.email == email) with
  | some _ => (⟨400, .errBody "User already exists"⟩, db)
  | none =>
    let u : User :=
      { id := env.fresh, name := nm, email := email, phone := ph,
        address := ad, orders := [], cart := [], createdAt := env.now }
    (⟨200, .okUser u⟩, { db with users := db.users ++ [u] })

/-- GET `/api/users/:id` (server.js lines 127-137). -/
def getProfileHandler (p : IdParam) (db : DB) : Resp × DB :=
  match p with
  | .malformed raw => (⟨500, .errBody (castErr raw)⟩, db)
  | .valid i =>
    match db.users.find? (fun x => x.id == i) with
    | none => (⟨404, .errBody "User not found"⟩, db)
    | some u => (⟨200, .okUser u⟩, db)

/-- The cart mutation of POST `/api/users/:id/cart` (server.js lines
149-154): `cart.find` locates the first line item with the given productId
and its quantity is incremented in place; otherwise a new line item is
pushed (its `addedAt` filled by the schema default at save time). -/
def addToCartList (pid nm : String) (pr qty : Int) (now : Nat) :
    List CartItem → List CartItem
  | [] => [⟨pid, nm, pr, qty, now⟩]
  | it :: rest =>
    if it.productId == pid then
      { it with quantity := it.quantity + qty } :: rest
    else
      it :: addToCartList pid nm pr qty now rest

/-- POST `/api/users/:id/cart` (server.js lines 140-161): load the user
(404 if absent), mutate the cart, `user.save()` (persisting the one whole
user document), respond with the updated cart. -/
def addCartHandler (p : IdParam) (pid nm : String) (pr qty : Int)
    (env : Env) (db : DB) : Resp × DB :=
  match p with
  | .malformed raw => (⟨500, .errBody (castErr raw)⟩, db)
  | .valid i =>
    match db.users.find? (fun x => x.id == i) with
    | none => (⟨404, .errBody "User not found"⟩, db)
    | some u =>
      let newCart := addToCartList pid nm pr qty env.now u.cart
      let u' := { u with cart := newCart }
      (⟨200, .okCart newCart⟩,
        { db with users := db.users.map fun x => if x.id == i then u' else x })

/-- GET `/api/users/:id/cart` (server.js lines 164-174). -/
def getCartHandler (p : IdParam) (db : DB) : Resp × DB :=
  match p with
  | .malformed raw => (⟨500, .errBody (castErr raw)⟩, db)
  | .valid i =>
    match db.users.find? (fun x => x.id == i) with
    | none => (⟨404, .errBody "User not found"⟩, db)
    | some u => (⟨200, .okCart u.cart⟩, db)

/-- The order total, `cart.reduce((sum, item) => sum + item.price * item.quantity, 0)`
(server.js line 185). -/
def cartTotal (cart : List CartItem) : Int :=
  cart.foldl (fun sum it => sum + it.price * it.quantity) 0

/-- The order built by POST `/api/users/:id/orders` (server.js lines
184-197): a time-based order id, a snapshot of every cart line item with
`addedAt` dropped, the computed total, status pending (`createdAt` filled by
the schema default at save time). -/
def mkOrder (now : Nat) (cart : List CartItem) : Order :=
  { orderId := "ORDER_" ++ toString now,
    products := cart.map fun it => ⟨it.productId, it.name, it.price, it.quantity⟩,
    total := cartTotal cart,
    status := "pending",
    createdAt := now }

/-- POST `/api/users/:id/orders` (server.js lines 177-207): load the user
(404 if absent), append the snapshot order to `orders`, clear the cart, and
persist the user document in one `save()`. -/
def placeOrderHandler (p : IdParam) (env : Env) (db : DB) : Resp × DB :=
  match p with
  | .malformed raw => (⟨500, .errBody (castErr raw)⟩, db)
  | .valid i =>
    match db.users.find? (fun x => x.id == i) with
    | none => (⟨404, .errBody "User not found"⟩, db)
    | some u =>
      let order := mkOrder env.now u.cart
      let u' := { u with orders := u.orders ++ [order], cart := [] }
      (⟨200, .okOrder order⟩,
        { db with users := db.users.map fun x => if x.id == i then u' else x })

/-- GET `/api/users/:id/orders` (server.js lines 210-220). -/
def getOrdersHandler (p : IdParam) (db : DB) : Resp × DB :=
  match p with
  | .malformed raw => (⟨500, .errBody (castErr raw)⟩, db)
  | .valid i =>
    match db.users.find? (fun x => x.id == i) with
    | none => (⟨404, .errBody "User not found"⟩, db)
    | some u => (⟨200, .okOrders u.orders⟩, db)

/-- The per-item insertion mapping of the refresher (server.js lines
257-264): `name: product.name || product.productName`,
`price: parseFloat(product.price) || 0`, `description: product.description || empty`,
`category: product.category || General`, `inStock: true`.  The result is
`none` when `newProduct.save()` fails its schema validation, which happens
exactly when the resolved name is still missing or empty (`name` is a
required string; the mapped price is always a number). -/
def mapRemoteProduct (newId now : Nat) (p : RemoteProduct) : Option Product :=
  let nm := jsOr p.name p.productName
  if falsy nm then none
  else some
    { id := newId,
      name := nm.getD "",
      price := p.price.getD 0,
      description := some (jsOrD p.description ""),
      image := p.image,
      category := some (jsOrD p.category "General"),
      inStock := true,
      createdAt := now }

/-- The outcome of every individual `save()` started by the refresher's
`products.map` (server.js lines 256-266), in payload order, with
store-generated ids `base`, `base+1`, .... -/
def insertResults (base now : Nat) (ps : List RemoteProduct) :
    List (Option Product) :=
  ps.enum.map fun kp => mapRemoteProduct (base + kp.1) now kp.2

/-- GET `/api/shop-data` (server.js lines 223-305).  A transport error or
unparseable body yields a 500 without touching the store; `success: false`
yields a 404 without touching the store.  Otherwise all Product documents
are deleted and one insert is started per remote item; every successful
insert lands in the store.  If every insert succeeds the response carries
the merged metadata; if any insert fails, `Promise.all` rejects and the
catch responds `success: true` with the original remote `data` as fallback
(the successfully inserted products remain). -/
def shopDataHandler (remote : RemoteResult) (env : Env) (db : DB) :
    Resp × DB :=
  match remote with
  | .netError =>
    (⟨500, .errBody "Failed to fetch shop data from main server"⟩, db)
  | .response (.malformed _) =>
    (⟨500, .errBody "Failed to parse shop data"⟩, db)
  | .response (.parsed sd) =>
    if sd.success then
      let products := sd.data.products.getD []
      let results := insertResults env.fresh env.now products
      let db' := { db with products := results.filterMap id }
      if results.all Option.isSome then
        (⟨200, .okShopData
          { shopName := sd.data.shopName, appName := sd.data.appName,
            gstNumber := sd.data.gstNumber, products := products,
            lastUpdated := sd.data.lastUpdated }⟩, db')
      else
        (⟨200, .okShopFallback sd.data⟩, db')
    else
      (⟨404, .errBody "Shop data not found"⟩, db)

/-- GET `/api/app-config` (server.js lines 308-327): a static payload with
the call-time timestamp. -/
def appConfigHandler (env : Env) (db : DB) : Resp × DB :=
  (⟨200, .okConfig
    { adminId := "6902176a312bc81a247cf58e", shopName := "FunFood",
      lastUpdated := env.now, searchEnabled := true, cartEnabled := true,
      userRegistrationEnabled := true, orderTrackingEnabled := true }⟩, db)

/-- GET `/health` (server.js lines 330-332): `{status: OK, timestamp}`,
outside the envelope. -/
def healthHandler (env : Env) (db : DB) : Resp × DB :=
  (⟨200, .healthBody env.now⟩, db)

/-- One inbound HTTP request, with the route inputs (and, for the
refresher, the behaviour of the remote collaborator). -/
inductive Request where
  | listProducts
  | getProduct (p : IdParam)
  | searchProducts (query : String)
  | register (nm email : String) (ph : Option String) (ad : Option Address)
  | getProfile (p : IdParam)
  | addCart (p : IdParam) (pid nm : String) (pr qty : Int)
  | getCart (p : IdParam)
  | placeOrder (p : IdParam)
  | getOrders (p : IdParam)
  | shopData (remote : RemoteResult)
  | appConfig
  | health
  deriving DecidableEq, Repr

/-- The router: dispatch a request to its handler. -/
def handle : Request → Env → DB → Resp × DB
  | .listProducts, _, db => listProductsHandler db
  | .getProduct p, _, db => getProductHandler p db
  | .searchProducts q, _, db => searchHandler q db
  | .register nm email ph ad, env, db => registerHandler nm email ph ad env db
  | .getProfile p, _, db => getProfileHandler p db
  | .addCart p pid nm pr qty, env, db => addCartHandler p pid nm pr qty env db
  | .getCart p, _, db => getCartHandler p db
  | .placeOrder p, env, db => placeOrderHandler p env db
  | .getOrders p, _, db => getOrdersHandler p db
  | .shopData remote, env, db => shopDataHandler remote env db
  | .appConfig, env, db => appConfigHandler env db
  | .health, env, db => healthHandler env db

/-! Helper lemmas shared by several claims. -/

/-- The reduce-based order total is the sum of `price * quantity` over the
cart. -/
theorem cartTotal_eq_sum (cart : List CartItem) :
    cartTotal cart = (cart.map fun it => it.price * it.quantity).sum := by
  have h : ∀ (l : List CartItem) (a : Int),
      l.foldl (fun sum it => sum + it.price * it.quantity) a
        = a + (l.map fun it => it.price * it.quantity).sum := by
    intro l
    induction l with
    | nil => intro a; simp
    | cons x xs ih => intro a; simp [ih, add_assoc]
  simpa [cartTotal] using h cart 0

/-- Adding a productId that is not in the cart appends exactly one new line
item. -/
theorem addToCartList_not_mem (pid nm : String) (pr qty : Int) (now : Nat)
    (cart : List CartItem) (h : pid ∉ cart.map CartItem.productId) :
    addToCartList pid nm pr qty now cart = cart ++ [⟨pid, nm, pr, qty, now⟩] := by
  induction cart with
  | nil => rfl
  | cons it rest ih =>
    simp only [List.map_cons, List.mem_cons, not_or] at h
    have hne : (it.productId == pid) = false := by
      simp [beq_iff_eq]
      exact fun he => h.1 he.symm
    simp [addToCartList, hne, ih h.2]

/-- Adding a productId already present in the cart leaves the multiset of
productIds unchanged (only the first matching quantity is incremented). -/
theorem addToCartList_map_productId_mem (pid nm : String) (pr qty : Int)
    (now : Nat) (cart : List CartItem)
    (h : pid ∈ cart.map CartItem.productId) :
    (addToCartList pid nm pr qty now cart).map CartItem.productId
      = cart.map CartItem.productId := by
  induction cart with
  | nil => simp at h
  | cons it rest ih =>
    by_cases hb : (it.productId == pid) = true
    · simp [addToCartList, hb]
    · simp only [List.map_cons, List.mem_cons] at h
      have hm : pid ∈ rest.map CartItem.productId := by
        rcases h with h | h
        · exact absurd (by simp [beq_iff_eq, h]) hb
        · exact h
      simp [addToCartList, hb, ih hm]

/-- Adding onto a cart that ends with the pid line item increments that
item's quantity, leaving the earlier (pid-free) prefix untouched. -/
theorem addToCartList_append_hit (pid nm nm' : String) (pr pr' q q' : Int)
    (t t' : Nat) (cart : List CartItem)
    (h : pid ∉ cart.map CartItem.productId) :
    addToCartList pid nm' pr' q' t' (cart ++ [⟨pid, nm, pr, q, t⟩])
      = cart ++ [⟨pid, nm, pr, q + q', t⟩] := by
  induction cart with
  | nil => simp [addToCartList]
  | cons it rest ih =>
    simp only [List.map_cons, List.mem_cons, not_or] at h
    have hne : (it.productId == pid) = false := by
      simp [beq_iff_eq]
      exact fun he => h.1 he.symm
    simp [addToCartList, hne, ih h.2]

/-- The cart mutation leaves every line item with a different productId
untouched. -/
theorem addToCartList_filter_ne (pid nm : String) (pr qty : Int) (now : Nat)
    (cart : List CartItem) :
    (addToCartList pid nm pr qty now cart).filter (fun it => it.productId != pid)
      = cart.filter (fun it => it.productId != pid) := by
  induction cart with
  | nil => simp [addToCartList]
  | cons it rest ih =>
    by_cases hb : (it.productId == pid) = true
    · simp [addToCartList, hb, List.filter, bne, hb]
    · simp [addToCartList, hb, List.filter, bne,
        Bool.not_eq_true] at ih ⊢
      simp [hb, ih]

/-- C1: for every existing user, `placeOrder` responds 200 with one order
whose total is Σ price·quantity over the call-time cart and whose product
list snapshots every cart line item with `addedAt` dropped; the one
persisted update appends that order to the user's order history and
replaces the cart with the empty sequence.  An empty cart yields an order
with total 0 and zero product lines rather than a failure. -/
theorem placeOrder_spec (db : DB) (i : Nat) (u : User) (env : Env)
    (h : db.users.find? (fun x => x.id == i) = some u) :
    placeOrderHandler (.valid i) env db
      = (⟨200, .okOrder (mkOrder env.now u.cart)⟩,
         { db with users := db.users.map fun x =>
             if x.id == i then
               { u with
                 orders := u.orders ++ [mkOrder env.now u.cart]
                 cart := [] }
             else x })
    ∧ (mkOrder env.now u.cart).total
        = (u.cart.map fun it => it.price * it.quantity).sum
    ∧ (mkOrder env.now u.cart).products
        = u.cart.map (fun it =>
            (⟨it.productId, it.name, it.price, it.quantity⟩ : OrderProduct))
    ∧ (u.cart = [] →
        (mkOrder env.now u.cart).total = 0
        ∧ (mkOrder env.now u.cart).products = []) := by
  refine ⟨by simp [placeOrderHandler, h], cartTotal_eq_sum u.cart ▸ rfl, rfl, ?_⟩
  intro hc
  simp [mkOrder, cartTotal, hc]

/-- Concrete run of `placeOrder_spec`: a user with cart
`[{price 10, qty 2}, {price 5, qty 1}]` gets one order with total 25, two
snapshot lines, and an emptied cart. -/
theorem placeOrder_spec_witness :
    (DB.mk [] [⟨1, "A", "a@x", none, none, [],
        [⟨"p1", "Pizza", 10, 2, 5⟩, ⟨"p2", "Soda", 5, 1, 6⟩], 0⟩]).users.find?
        (fun x => x.id == 1)
      = some ⟨1, "A", "a@x", none, none, [],
          [⟨"p1", "Pizza", 10, 2, 5⟩, ⟨"p2", "Soda", 5, 1, 6⟩], 0⟩
    ∧ (placeOrderHandler (.valid 1) ⟨99, 7⟩
        (DB.mk [] [⟨1, "A", "a@x", none, none, [],
          [⟨"p1", "Pizza", 10, 2, 5⟩, ⟨"p2", "Soda", 5, 1, 6⟩], 0⟩])).1
      = ⟨200, .okOrder ⟨"ORDER_99",
          [⟨"p1", "Pizza", 10, 2⟩, ⟨"p2", "Soda", 5, 1⟩], 25, "pending", 99⟩⟩
    ∧ (placeOrderHandler (.valid 1) ⟨99, 7⟩
        (DB.mk [] [⟨1, "A", "a@x", none, none, [],
          [⟨"p1", "Pizza", 10, 2, 5⟩, ⟨"p2", "Soda", 5, 1, 6⟩], 0⟩])).2.users.map
        User.cart = [[]] := by
  have h := placeOrder_spec
    (DB.mk [] [⟨1, "A", "a@x", none, none, [],
      [⟨"p1", "Pizza", 10, 2, 5⟩, ⟨"p2", "Soda", 5, 1, 6⟩], 0⟩]) 1
    ⟨1, "A", "a@x", none, none, [],
      [⟨"p1", "Pizza", 10, 2, 5⟩, ⟨"p2", "Soda", 5, 1, 6⟩], 0⟩ ⟨99, 7⟩ rfl
  refine ⟨rfl, ?_, ?_⟩
  · rw [h.1]; decide
  · rw [h.1]; decide

/-- The cart mutation preserves distinctness of the cart's productIds. -/
theorem addToCartList_nodup (pid nm : String) (pr qty : Int) (t : Nat)
    (cart : List CartItem) (hnd : (cart.map CartItem.productId).Nodup) :
    ((addToCartList pid nm pr qty t cart).map CartItem.productId).Nodup := by
  by_cases hm : pid ∈ cart.map CartItem.productId
  · rw [addToCartList_map_productId_mem pid nm pr qty t cart hm]
    exact hnd
  · rw [addToCartList_not_mem pid nm pr qty t cart hm]
    simp [List.nodup_append, hnd, hm]

/-- C2: the cart holds at most one line item per distinct productId and
`addItem` preserves this invariant — both on the mutated cart and across
the whole user collection; a productId not present appends exactly one new
line item, and adding quantity 2 then quantity 3 for the same productId
leaves one line item for it with quantity 5. -/
theorem addItem_nodup_accumulate (pid nm : String) (pr qty : Int)
    (t1 t2 : Nat) (cart : List CartItem)
    (hnd : (cart.map CartItem.productId).Nodup) :
    ((addToCartList pid nm pr qty t1 cart).map CartItem.productId).Nodup
    ∧ (∀ (db : DB) (i : Nat) (env : Env),
        (∀ x ∈ db.users, (x.cart.map CartItem.productId).Nodup) →
        ∀ x ∈ (addCartHandler (.valid i) pid nm pr qty env db).2.users,
          (x.cart.map CartItem.productId).Nodup)
    ∧ (pid ∉ cart.map CartItem.productId →
        addToCartList pid nm pr 2 t1 cart = cart ++ [⟨pid, nm, pr, 2, t1⟩]
        ∧ addToCartList pid nm pr 3 t2 (addToCartList pid nm pr 2 t1 cart)
            = cart ++ [⟨pid, nm, pr, 5, t1⟩]) := by
  refine ⟨addToCartList_nodup pid nm pr qty t1 cart hnd, ?_, ?_⟩
  · intro db i env hinv x hx
    cases hf : db.users.find? (fun y => y.id == i) with
    | none =>
      simp only [addCartHandler, hf] at hx
      exact hinv x hx
    | some u =>
      simp only [addCartHandler, hf] at hx
      rcases List.mem_map.mp hx with ⟨y, hy, rfl⟩
      by_cases hyi : (y.id == i) = true
      · simp only [hyi, if_true]
        exact addToCartList_nodup pid nm pr qty env.now u.cart
          (hinv u (List.mem_of_find?_eq_some hf))
      · simp only [hyi, if_false, Bool.false_eq_true]
        exact hinv y hy
  · intro hm
    refine ⟨addToCartList_not_mem pid nm pr 2 t1 cart hm, ?_⟩
    rw [addToCartList_not_mem pid nm pr 2 t1 cart hm,
      addToCartList_append_hit pid nm nm pr pr 2 3 t1 t2 cart hm]
    norm_num

/-- Concrete run of `addItem_nodup_accumulate`: add(p1, qty 2) then
add(p1, qty 3) on an empty cart leaves one line item with quantity 5. -/
theorem addItem_nodup_accumulate_witness :
    (([] : List CartItem).map CartItem.productId).Nodup
    ∧ ("p1" ∉ ([] : List CartItem).map CartItem.productId)
    ∧ addToCartList "p1" "Pizza" 10 3 8
        (addToCartList "p1" "Pizza" 10 2 7 [])
      = [⟨"p1", "Pizza", 10, 5, 7⟩]
    ∧ (∀ x ∈ (addCartHandler (.valid 1) "p1" "Pizza" 10 2 ⟨7, 0⟩
          ⟨[], [⟨1, "A", "a@x", none, none, [], [⟨"p2", "Soda", 5, 1, 0⟩], 0⟩]⟩).2.users,
        (x.cart.map CartItem.productId).Nodup) := by
  have h := addItem_nodup_accumulate "p1" "Pizza" 10 2 7 8 [] (by simp)
  refine ⟨by simp, by simp, by simpa using (h.2.2 (by simp)).2, ?_⟩
  exact h.2.1 ⟨[], [⟨1, "A", "a@x", none, none, [], [⟨"p2", "Soda", 5, 1, 0⟩], 0⟩]⟩
    1 ⟨7, 0⟩ (by decide)

/-- C3: a remote body that is not valid JSON, or a parsed payload whose
success flag is false, makes the refresher answer with a failure envelope
(non-2xx) and leave the database — in particular the Product collection —
completely unchanged: no delete and no insert occurs. -/
theorem refresh_failure_no_mutation (db : DB) (env : Env) (raw : String)
    (sd : ShopData) (hfail : sd.success = false) :
    shopDataHandler (.response (.malformed raw)) env db
      = (⟨500, .errBody "Failed to parse shop data"⟩, db)
    ∧ shopDataHandler (.response (.parsed sd)) env db
      = (⟨404, .errBody "Shop data not found"⟩, db) := by
  constructor
  · rfl
  · simp [shopDataHandler, hfail]

/-- Concrete run of `refresh_failure_no_mutation`: malformed JSON and a
success-false payload both leave a one-product store untouched. -/
theorem refresh_failure_no_mutation_witness :
    (ShopData.mk false ⟨none, none, none, none, none⟩).success = false
    ∧ shopDataHandler (.response (.malformed "oops")) ⟨3, 4⟩
        ⟨[⟨9, "Old", 1, none, none, none, true, 0⟩], []⟩
      = (⟨500, .errBody "Failed to parse shop data"⟩,
         ⟨[⟨9, "Old", 1, none, none, none, true, 0⟩], []⟩)
    ∧ shopDataHandler
        (.response (.parsed (ShopData.mk false ⟨none, none, none, none, none⟩)))
        ⟨3, 4⟩ ⟨[⟨9, "Old", 1, none, none, none, true, 0⟩], []⟩
      = (⟨404, .errBody "Shop data not found"⟩,
         ⟨[⟨9, "Old", 1, none, none, none, true, 0⟩], []⟩) :=
  ⟨rfl,
   (refresh_failure_no_mutation ⟨[⟨9, "Old", 1, none, none, none, true, 0⟩], []⟩
     ⟨3, 4⟩ "oops" (ShopData.mk false ⟨none, none, none, none, none⟩) rfl).1,
   (refresh_failure_no_mutation ⟨[⟨9, "Old", 1, none, none, none, true, 0⟩], []⟩
     ⟨3, 4⟩ "oops" (ShopData.mk false ⟨none, none, none, none, none⟩) rfl).2⟩

/-- C4 (amended): when some individual insert of the refresher fails after
the unconditional delete, the caller still receives `success: true` with
the original remote payload as fallback data, and the local store is left
holding exactly the products whose individual inserts succeeded (possibly
none of them - not necessarily empty). -/
theorem refresh_insert_failure_fallback (db : DB) (env : Env) (sd : ShopData)
    (hs : sd.success = true)
    (hfail : (insertResults env.fresh env.now (sd.data.products.getD [])).all
        Option.isSome = false) :
    shopDataHandler (.response (.parsed sd)) env db
      = (⟨200, .okShopFallback sd.data⟩,
         { db with products :=
             (insertResults env.fresh env.now
               (sd.data.products.getD [])).filterMap id }) := by
  simp [shopDataHandler, hs, hfail]

/-- A remote payload whose second product has no name at all, so that its
insert fails schema validation while the first insert succeeds. -/
def cexShopData : ShopData :=
  ⟨true, ⟨some "S", some "App", none,
    some [⟨some "Pizza", none, some 10, none, none, none⟩,
          ⟨none, none, none, none, none, none⟩], none⟩⟩

/-- C4 counterexample: with `cexShopData` the insert phase fails after the
delete, the response is the `success: true` fallback — yet the local store
is NOT empty: the product whose insert succeeded remains.  This refutes the
claim's assertion that the store has been left empty. -/
theorem refresh_insert_failure_counterexample :
    ((insertResults 0 0 (cexShopData.data.products.getD [])).all
        Option.isSome = false)
    ∧ (shopDataHandler (.response (.parsed cexShopData)) ⟨0, 0⟩ ⟨[], []⟩).1
        = ⟨200, .okShopFallback cexShopData.data⟩
    ∧ (shopDataHandler (.response (.parsed cexShopData)) ⟨0, 0⟩ ⟨[], []⟩).2.products
        ≠ [] := by
  decide

/-- Concrete run of `refresh_insert_failure_fallback` on `cexShopData`. -/
theorem refresh_insert_failure_fallback_witness :
    cexShopData.success = true
    ∧ ((insertResults 7 5 (cexShopData.data.products.getD [])).all
        Option.isSome = false)
    ∧ shopDataHandler (.response (.parsed cexShopData)) ⟨5, 7⟩ ⟨[], []⟩
      = (⟨200, .okShopFallback cexShopData.data⟩,
         { products :=
             (insertResults 7 5 (cexShopData.data.products.getD [])).filterMap id,
           users := [] }) :=
  ⟨rfl, by decide,
   refresh_insert_failure_fallback ⟨[], []⟩ ⟨5, 7⟩ cexShopData rfl (by decide)⟩

/-- C5: the insertion mapping takes `name` from the remote `name` field,
falling back to `productName` when `name` is absent (or empty — JS
falsiness), coerces price to a number with default 0 on parse failure,
defaults category to General, and forces `inStock = true`; consequently a
remote product carrying only a `productName` round-trips through a
successful refresh and is retrievable by id with local name equal to that
`productName` value. -/
theorem refresher_mapping_roundtrip (p : RemoteProduct) (newId now : Nat) :
    (∀ n, p.name = some n → n ≠ "" →
      (mapRemoteProduct newId now p).map Product.name = some n)
    ∧ (∀ m, falsy p.name = true → p.productName = some m → m ≠ "" →
      (mapRemoteProduct newId now p).map Product.name = some m)
    ∧ (∀ q, mapRemoteProduct newId now p = some q →
        q.price = p.price.getD 0
        ∧ (p.price = none → q.price = 0)
        ∧ q.inStock = true
        ∧ (p.category = none → q.category = some "General"))
    ∧ (∀ (pn : String) (db : DB) (env : Env) (meta : ShopDataData),
        pn ≠ "" →
        meta.products = some [⟨none, some pn, none, none, none, none⟩] →
        (getProductHandler (.valid env.fresh)
            (shopDataHandler (.response (.parsed ⟨true, meta⟩)) env db).2).1
          = ⟨200, .okProduct
              ⟨env.fresh, pn, 0, some "", none, some "General", true, env.now⟩⟩) := by
  refine ⟨?_, ?_, ?_, ?_⟩
  · intro n hn hne
    simp [mapRemoteProduct, jsOr, falsy, hn, hne]
  · intro m hf hm hne
    have hj : jsOr p.name p.productName = some m := by
      simp [jsOr, hf, hm]
    simp [mapRemoteProduct, hj, falsy, hne]
  · intro q hq
    by_cases hf : falsy (jsOr p.name p.productName) = true
    · simp [mapRemoteProduct, hf] at hq
    · simp [mapRemoteProduct, hf] at hq
      refine ⟨?_, ?_, ?_, ?_⟩
      · rw [← hq]
      · intro hp; rw [← hq]; simp [hp]
      · rw [← hq]
      · intro hc; rw [← hq]; simp [jsOrD, falsy, hc]
  · intro pn db env meta hpn hmeta
    have hfal : falsy (some pn) = false := by simp [falsy, hpn]
    simp [shopDataHandler, insertResults, hmeta, List.enum, mapRemoteProduct,
      jsOr, falsy, hpn, getProductHandler, jsOrD]

/-- Concrete run of `refresher_mapping_roundtrip`: a remote item with only
`productName = "Chips"` is inserted and then retrieved with name
"Chips", price 0, category "General", inStock true. -/
theorem refresher_mapping_roundtrip_witness :
    ((⟨some "Burger", some "X", some 7, none, none, some "Food"⟩ :
        RemoteProduct).name = some "Burger")
    ∧ (mapRemoteProduct 2 9
        ⟨some "Burger", some "X", some 7, none, none, some "Food"⟩).map
        Product.name = some "Burger"
    ∧ ("Chips" ≠ "")
    ∧ ((⟨none, none, none, some [⟨none, some "Chips", none, none, none, none⟩],
          none⟩ : ShopDataData).products
        = some [⟨none, some "Chips", none, none, none, none⟩])
    ∧ (getProductHandler (.valid 3)
        (shopDataHandler (.response (.parsed ⟨true,
          ⟨none, none, none,
            some [⟨none, some "Chips", none, none, none, none⟩], none⟩⟩))
          ⟨5, 3⟩ ⟨[⟨0, "Stale", 1, none, none, none, true, 0⟩], []⟩).2).1
      = ⟨200, .okProduct ⟨3, "Chips", 0, some "", none, some "General", true, 5⟩⟩ := by
  refine ⟨rfl, ?_, by decide, rfl, ?_⟩
  · exact (refresher_mapping_roundtrip
      ⟨some "Burger", some "X", some 7, none, none, some "Food"⟩ 2 9).1
      "Burger" rfl (by decide)
  · exact (refresher_mapping_roundtrip
      ⟨none, some "Chips", none, none, none, none⟩ 0 0).2.2.2
      "Chips" ⟨[⟨0, "Stale", 1, none, none, none, true, 0⟩], []⟩ ⟨5, 3⟩
      ⟨none, none, none, some [⟨none, some "Chips", none, none, none, none⟩], none⟩
      (by decide) rfl

/-- C6: register answers 400 Conflict and leaves the database (hence the
existing user's record) unchanged when a user with the email exists;
otherwise it appends exactly one new user with empty cart and empty orders
and returns that created record. -/
theorem register_spec (db : DB) (nm email : String) (ph : Option String)
    (ad : Option Address) (env : Env) :
    (∀ u, db.users.find? (fun x => x.email == email) = some u →
      registerHandler nm email ph ad env db
        = (⟨400, .errBody "User already exists"⟩, db))
    ∧ (db.users.find? (fun x => x.email == email) = none →
      registerHandler nm email ph ad env db
        = (⟨200, .okUser ⟨env.fresh, nm, email, ph, ad, [], [], env.now⟩⟩,
           { db with users :=
               db.users ++ [⟨env.fresh, nm, email, ph, ad, [], [], env.now⟩] })) := by
  constructor
  · intro u hu
    simp [registerHandler, hu]
  · intro hn
    simp [registerHandler, hn]

/-- Concrete run of `register_spec`: registering a fresh email creates the
user; registering it again on the resulting database answers 400 and
changes nothing. -/
theorem register_spec_witness :
    ((DB.mk [] []).users.find? (fun x => x.email == "a@x") = none)
    ∧ registerHandler "Ann" "a@x" none none ⟨1, 1⟩ ⟨[], []⟩
      = (⟨200, .okUser ⟨1, "Ann", "a@x", none, none, [], [], 1⟩⟩,
         ⟨[], [⟨1, "Ann", "a@x", none, none, [], [], 1⟩]⟩)
    ∧ ((DB.mk [] [⟨1, "Ann", "a@x", none, none, [], [], 1⟩]).users.find?
        (fun x => x.email == "a@x") = some ⟨1, "Ann", "a@x", none, none, [], [], 1⟩)
    ∧ registerHandler "Bob" "a@x" none none ⟨2, 2⟩
        ⟨[], [⟨1, "Ann", "a@x", none, none, [], [], 1⟩]⟩
      = (⟨400, .errBody "User already exists"⟩,
         ⟨[], [⟨1, "Ann", "a@x", none, none, [], [], 1⟩]⟩) := by
  refine ⟨rfl, ?_, by decide, ?_⟩
  · simpa using (register_spec ⟨[], []⟩ "Ann" "a@x" none none ⟨1, 1⟩).2 rfl
  · exact (register_spec ⟨[], [⟨1, "Ann", "a@x", none, none, [], [], 1⟩]⟩
      "Bob" "a@x" none none ⟨2, 2⟩).1
      ⟨1, "Ann", "a@x", none, none, [], [], 1⟩ (by decide)

/-- C7 counterexample: with product 1 in the store, a malformed id makes
`findById` throw a CastError which the catch-all turns into a 500 failure —
not the NotFound (404) the claim asserts for malformed ids. -/
theorem getById_malformed_counterexample :
    (getProductHandler (.malformed "abc")
        ⟨[⟨1, "Pizza", 10, none, none, none, true, 0⟩], []⟩).1.status = 500
    ∧ (getProductHandler (.malformed "abc")
        ⟨[⟨1, "Pizza", 10, none, none, none, true, 0⟩], []⟩).1
      ≠ ⟨404, .errBody "Product not found"⟩ := by
  decide

/-- C7 (amended): getById returns the one product with a well-formed
existing id, signals NotFound (404) when no product with that id exists,
and on a malformed id fails with a generic 500 carrying the cast error —
not NotFound. -/
theorem getById_spec (db : DB) (i : Nat) (raw : String) :
    (∀ prod, db.products.find? (fun x => x.id == i) = some prod →
      getProductHandler (.valid i) db = (⟨200, .okProduct prod⟩, db))
    ∧ (db.products.find? (fun x => x.id == i) = none →
      getProductHandler (.valid i) db
        = (⟨404, .errBody "Product not found"⟩, db))
    ∧ getProductHandler (.malformed raw) db
        = (⟨500, .errBody (castErr raw)⟩, db) := by
  refine ⟨?_, ?_, rfl⟩
  · intro prod hp
    simp [getProductHandler, hp]
  · intro hn
    simp [getProductHandler, hn]

/-- Concrete run of `getById_spec`: product 1 is found, product 2 is
NotFound, and a malformed id yields the 500 cast failure. -/
theorem getById_spec_witness :
    ((DB.mk [⟨1, "Pizza", 10, none, none, none, true, 0⟩] []).products.find?
        (fun x => x.id == 1) = some ⟨1, "Pizza", 10, none, none, none, true, 0⟩)
    ∧ getProductHandler (.valid 1) ⟨[⟨1, "Pizza", 10, none, none, none, true, 0⟩], []⟩
      = (⟨200, .okProduct ⟨1, "Pizza", 10, none, none, none, true, 0⟩⟩,
         ⟨[⟨1, "Pizza", 10, none, none, none, true, 0⟩], []⟩)
    ∧ getProductHandler (.valid 2) ⟨[⟨1, "Pizza", 10, none, none, none, true, 0⟩], []⟩
      = (⟨404, .errBody "Product not found"⟩,
         ⟨[⟨1, "Pizza", 10, none, none, none, true, 0⟩], []⟩)
    ∧ getProductHandler (.malformed "zz") ⟨[⟨1, "Pizza", 10, none, none, none, true, 0⟩], []⟩
      = (⟨500, .errBody (castErr "zz")⟩,
         ⟨[⟨1, "Pizza", 10, none, none, none, true, 0⟩], []⟩) := by
  refine ⟨rfl, ?_, ?_, ?_⟩
  · exact (getById_spec ⟨[⟨1, "Pizza", 10, none, none, none, true, 0⟩], []⟩ 1 "zz").1
      ⟨1, "Pizza", 10, none, none, none, true, 0⟩ rfl
  · exact (getById_spec ⟨[⟨1, "Pizza", 10, none, none, none, true, 0⟩], []⟩ 2 "zz").2.1
      (by decide)
  · exact (getById_spec ⟨[⟨1, "Pizza", 10, none, none, none, true, 0⟩], []⟩ 1 "zz").2.2

/-- C8: search answers 200 with exactly the in-stock products whose name,
description or category matches the query case-insensitively (logical OR),
and never returns a product with inStock = false. -/
theorem search_spec (q : String) (db : DB) (p : Product) :
    searchHandler q db = (⟨200, .okProducts (searchList q db)⟩, db)
    ∧ (p ∈ searchList q db ↔
        p ∈ db.products ∧ p.inStock = true
        ∧ (ciMatch p.name q || ciMatchOpt p.description q
            || ciMatchOpt p.category q) = true)
    ∧ (p.inStock = false → p ∉ searchList q db) := by
  have hm : p ∈ searchList q db ↔
      p ∈ db.products ∧ p.inStock = true
      ∧ (ciMatch p.name q || ciMatchOpt p.description q
          || ciMatchOpt p.category q) = true := by
    simp only [searchList, List.mem_filter, Bool.and_eq_true]
    tauto
  refine ⟨rfl, hm, ?_⟩
  intro hs hmem
  rw [hm, hs] at hmem
  exact absurd hmem.2.1 (by simp)

/-- A three-product store exercising the search: an in-stock pizza matched
via name, an in-stock salad matched via category only, and an out-of-stock
product that matches but must never be returned. -/
def searchDB : DB :=
  ⟨[⟨1, "Margherita PIZZA", 10, some "cheesy", none, some "Food", true, 0⟩,
    ⟨2, "Salad", 5, none, none, some "pizza sides", true, 0⟩,
    ⟨3, "Old pizza", 4, none, none, none, false, 0⟩], []⟩

/-- Concrete run of `search_spec` on `searchDB` with query "Pizza": the
name and category matches are returned, the out-of-stock match is not. -/
theorem search_spec_witness :
    ((⟨1, "Margherita PIZZA", 10, some "cheesy", none, some "Food", true, 0⟩ : Product)
        ∈ searchList "Pizza" searchDB)
    ∧ ((⟨2, "Salad", 5, none, none, some "pizza sides", true, 0⟩ : Product)
        ∈ searchList "Pizza" searchDB)
    ∧ ((⟨3, "Old pizza", 4, none, none, none, false, 0⟩ : Product).inStock = false)
    ∧ ((⟨3, "Old pizza", 4, none, none, none, false, 0⟩ : Product)
        ∉ searchList "Pizza" searchDB) := by
  refine ⟨?_, ?_, rfl, ?_⟩
  · exact (search_spec "Pizza" searchDB _).2.1.mpr ⟨by decide, rfl, by decide⟩
  · exact (search_spec "Pizza" searchDB _).2.1.mpr ⟨by decide, rfl, by decide⟩
  · exact (search_spec "Pizza" searchDB _).2.2 rfl

/-- A response that respects the documented convention: an envelope body,
and a non-2xx (here always >= 400) status whenever it is the failure
envelope. -/
def goodResp (r : Resp) : Prop :=
  envelopeShaped r.body = true ∧ (isFailureBody r.body = true → 400 ≤ r.status)

theorem goodResp_listProducts (db : DB) :
    goodResp (listProductsHandler db).1 :=
  ⟨rfl, fun h => nomatch h⟩

theorem goodResp_getProduct (p : IdParam) (db : DB) :
    goodResp (getProductHandler p db).1 := by
  cases p with
  | malformed raw => exact ⟨rfl, fun _ => by show (400:Nat) ≤ 500; decide⟩
  | valid i =>
    cases h : db.products.find? (fun x => x.id == i) with
    | none =>
      simp [getProductHandler, h, goodResp, envelopeShaped, isFailureBody]
    | some prod =>
      simp [getProductHandler, h, goodResp, envelopeShaped, isFailureBody]

theorem goodResp_search (q : String) (db : DB) :
    goodResp (searchHandler q db).1 :=
  ⟨rfl, fun h => nomatch h⟩

theorem goodResp_register (nm email : String) (ph : Option String)
    (ad : Option Address) (env : Env) (db : DB) :
    goodResp (registerHandler nm email ph ad env db).1 := by
  cases h : db.users.find? (fun u => u.email == email) with
  | none =>
    simp [registerHandler, h, goodResp, envelopeShaped, isFailureBody]
  | some u =>
    simp [registerHandler, h, goodResp, envelopeShaped, isFailureBody]

theorem goodResp_getProfile (p : IdParam) (db : DB) :
    goodResp (getProfileHandler p db).1 := by
  cases p with
  | malformed raw => exact ⟨rfl, fun _ => by show (400:Nat) ≤ 500; decide⟩
  | valid i =>
    cases h : db.users.find? (fun x => x.id == i) with
    | none =>
      simp [getProfileHandler, h, goodResp, envelopeShaped, isFailureBody]
    | some u =>
      simp [getProfileHandler, h, goodResp, envelopeShaped, isFailureBody]

theorem goodResp_addCart (p : IdParam) (pid nm : String) (pr qty : Int)
    (env : Env) (db : DB) :
    goodResp (addCartHandler p pid nm pr qty env db).1 := by
  cases p with
  | malformed raw => exact ⟨rfl, fun _ => by show (400:Nat) ≤ 500; decide⟩
  | valid i =>
    cases h : db.users.find? (fun x => x.id == i) with
    | none =>
      simp [addCartHandler, h, goodResp, envelopeShaped, isFailureBody]
    | some u =>
      simp [addCartHandler, h, goodResp, envelopeShaped, isFailureBody]

theorem goodResp_getCart (p : IdParam) (db : DB) :
    goodResp (getCartHandler p db).1 := by
  cases p with
  | malformed raw => exact ⟨rfl, fun _ => by show (400:Nat) ≤ 500; decide⟩
  | valid i =>
    cases h : db.users.find? (fun x => x.id == i) with
    | none =>
      simp [getCartHandler, h, goodResp, envelopeShaped, isFailureBody]
    | some u =>
      simp [getCartHandler, h, goodResp, envelopeShaped, isFailureBody]

theorem goodResp_placeOrder (p : IdParam) (env : Env) (db : DB) :
    goodResp (placeOrderHandler p env db).1 := by
  cases p with
  | malformed raw => exact ⟨rfl, fun _ => by show (400:Nat) ≤ 500; decide⟩
  | valid i =>
    cases h : db.users.find? (fun x => x.id == i) with
    | none =>
      simp [placeOrderHandler, h, goodResp, envelopeShaped, isFailureBody]
    | some u =>
      simp [placeOrderHandler, h, goodResp, envelopeShaped, isFailureBody]

theorem goodResp_getOrders (p : IdParam) (db : DB) :
    goodResp (getOrdersHandler p db).1 := by
  cases p with
  | malformed raw => exact ⟨rfl, fun _ => by show (400:Nat) ≤ 500; decide⟩
  | valid i =>
    cases h : db.users.find? (fun x => x.id == i) with
    | none =>
      simp [getOrdersHandler, h, goodResp, envelopeShaped, isFailureBody]
    | some u =>
      simp [getOrdersHandler, h, goodResp, envelopeShaped, isFailureBody]

theorem goodResp_shopData (remote : RemoteResult) (env : Env) (db : DB) :
    goodResp (shopDataHandler remote env db).1 := by
  rcases remote with _ | body
  · exact ⟨rfl, fun _ => by show (400:Nat) ≤ 500; decide⟩
  · rcases body with raw | sd
    · exact ⟨rfl, fun _ => by show (400:Nat) ≤ 500; decide⟩
    · rcases Bool.eq_false_or_eq_true sd.success with hs | hs
      · rcases Bool.eq_false_or_eq_true
          ((insertResults env.fresh env.now (sd.data.products.getD [])).all
            Option.isSome) with ha | ha
        · simp [shopDataHandler, hs, ha, goodResp, envelopeShaped, isFailureBody,
            -List.all_eq_true]
        · simp [shopDataHandler, hs, ha, goodResp, envelopeShaped, isFailureBody,
            -List.all_eq_true]
      · simp [shopDataHandler, hs, goodResp, envelopeShaped, isFailureBody,
          -List.all_eq_true]

theorem goodResp_appConfig (env : Env) (db : DB) :
    goodResp (appConfigHandler env db).1 :=
  ⟨rfl, fun h => nomatch h⟩

/-- C9 counterexample: the `/health` response body is the bare
status/timestamp object, not the `{success, data|error}` envelope —
refuting the claim that every HTTP response of the system is
envelope-shaped. -/
theorem health_not_enveloped :
    envelopeShaped (handle Request.health ⟨0, 0⟩ ⟨[], []⟩).1.body = false := rfl

/-- C9 (amended): every HTTP response of every route other than `/health`
is shaped `{success: true, data}` or `{success: false, error}`, and every
failure response carries a non-2xx (in fact >= 400) status; `/health` alone
answers a bare status/timestamp object with status 200. -/
theorem responses_enveloped (req : Request) (env : Env) (db : DB)
    (h : req ≠ Request.health) :
    envelopeShaped (handle req env db).1.body = true
    ∧ (isFailureBody (handle req env db).1.body = true
        → 400 ≤ (handle req env db).1.status) := by
  cases req with
  | listProducts => exact goodResp_listProducts db
  | getProduct p => exact goodResp_getProduct p db
  | searchProducts q => exact goodResp_search q db
  | register nm email ph ad => exact goodResp_register nm email ph ad env db
  | getProfile p => exact goodResp_getProfile p db
  | addCart p pid nm pr qty => exact goodResp_addCart p pid nm pr qty env db
  | getCart p => exact goodResp_getCart p db
  | placeOrder p => exact goodResp_placeOrder p env db
  | getOrders p => exact goodResp_getOrders p db
  | shopData remote => exact goodResp_shopData remote env db
  | appConfig => exact goodResp_appConfig env db
  | health => exact absurd rfl h

/-- Concrete run of `responses_enveloped`: a NotFound getProduct response
is the failure envelope with status 404. -/
theorem responses_enveloped_witness :
    (Request.getProduct (.valid 5) ≠ Request.health)
    ∧ (envelopeShaped (handle (Request.getProduct (.valid 5)) ⟨0, 0⟩ ⟨[], []⟩).1.body
        = true
      ∧ (isFailureBody (handle (Request.getProduct (.valid 5)) ⟨0, 0⟩ ⟨[], []⟩).1.body
            = true
          → 400 ≤ (handle (Request.getProduct (.valid 5)) ⟨0, 0⟩ ⟨[], []⟩).1.status)) :=
  ⟨by decide,
   responses_enveloped (Request.getProduct (.valid 5)) ⟨0, 0⟩ ⟨[], []⟩ (by decide)⟩

/-- When user ids are unique (the store's `_id` invariant), the
save-one-user update `users.map (if id matches then g u else id)` acts
positionally as: the found user's slot gets `g u`, every other slot is
untouched. -/
theorem save_update_getElem (users : List User) (i : Nat) (u : User)
    (g : User → User) (k : Nat)
    (hids : (users.map User.id).Nodup)
    (hf : users.find? (fun x => x.id == i) = some u) :
    (users.map fun x => if x.id == i then g u else x)[k]?
      = users[k]?.map (fun x => if x = u then g u else x) := by
  have hu_mem : u ∈ users := List.mem_of_find?_eq_some hf
  have huid : u.id = i := by simpa using List.find?_some hf
  rw [List.getElem?_map]
  cases hk : users[k]? with
  | none => rfl
  | some x =>
    have hx_mem : x ∈ users := List.getElem?_mem hk
    by_cases hxi : x.id = i
    · have hxu : x = u :=
        List.inj_on_of_nodup_map hids hx_mem hu_mem (by rw [hxi, huid])
      simp [hxu, huid]
    · have hxu : x ≠ u := fun he => hxi (he ▸ huid ▸ rfl)
      simp [hxi, hxu]

/-- C10: on a store with unique user ids, `addItem` and `placeOrder`
leave the Product collection unchanged and every other user's document
unchanged; at every position of the user collection they preserve name,
email, phone, address and createdAt, `addItem` additionally preserves the
order history, and `addItem` leaves every cart line item with a different
productId unchanged. -/
theorem mutation_frame (db : DB) (i : Nat) (pid nm : String) (pr qty : Int)
    (env : Env) (k : Nat)
    (hids : (db.users.map User.id).Nodup) :
    ((addCartHandler (.valid i) pid nm pr qty env db).2.products = db.products)
    ∧ ((placeOrderHandler (.valid i) env db).2.products = db.products)
    ∧ ((addCartHandler (.valid i) pid nm pr qty env db).2.users[k]?.map
        (fun u => (u.name, u.email, u.phone, u.address, u.createdAt, u.orders))
        = db.users[k]?.map
          (fun u => (u.name, u.email, u.phone, u.address, u.createdAt, u.orders)))
    ∧ ((placeOrderHandler (.valid i) env db).2.users[k]?.map
        (fun u => (u.name, u.email, u.phone, u.address, u.createdAt))
        = db.users[k]?.map
          (fun u => (u.name, u.email, u.phone, u.address, u.createdAt)))
    ∧ ((addCartHandler (.valid i) pid nm pr qty env db).2.users[k]?.map
        (fun u => u.cart.filter (fun it => it.productId != pid))
        = db.users[k]?.map
          (fun u => u.cart.filter (fun it => it.productId != pid)))
    ∧ (∀ u', db.users[k]? = some u' → u'.id ≠ i →
        (addCartHandler (.valid i) pid nm pr qty env db).2.users[k]? = some u'
        ∧ (placeOrderHandler (.valid i) env db).2.users[k]? = some u') := by
  cases hf : db.users.find? (fun x => x.id == i) with
  | none =>
    have h2 : (addCartHandler (.valid i) pid nm pr qty env db).2 = db := by
      simp [addCartHandler, hf]
    have h3 : (placeOrderHandler (.valid i) env db).2 = db := by
      simp [placeOrderHandler, hf]
    rw [h2, h3]
    exact ⟨rfl, rfl, rfl, rfl, rfl, fun u' hk _ => ⟨hk, hk⟩⟩
  | some u =>
    have huid : u.id = i := by simpa using List.find?_some hf
    have hA := save_update_getElem db.users i u
      (fun v => { v with cart := addToCartList pid nm pr qty env.now v.cart })
      k hids hf
    have hO := save_update_getElem db.users i u
      (fun v => { v with
        orders := v.orders ++ [mkOrder env.now v.cart]
        cart := [] }) k hids hf
    simp only [addCartHandler, placeOrderHandler, hf]
    refine ⟨by simp, by simp, ?_, ?_, ?_, ?_⟩
    · rw [hA]
      cases hk : db.users[k]? with
      | none => rfl
      | some x =>
        by_cases hxu : x = u
        · subst hxu; simp
        · simp [hxu]
    · rw [hO]
      cases hk : db.users[k]? with
      | none => rfl
      | some x =>
        by_cases hxu : x = u
        · subst hxu; simp
        · simp [hxu]
    · rw [hA]
      cases hk : db.users[k]? with
      | none => rfl
      | some x =>
        by_cases hxu : x = u
        · subst hxu
          simp [addToCartList_filter_ne]
        · simp [hxu]
    · intro u' hk hne
      have hne' : u' ≠ u := fun he => hne (he ▸ huid ▸ rfl)
      rw [hA, hO, hk]
      simp [hne']

/-- Concrete run of `mutation_frame`: user 1 is targeted, user 2 and his
cart line for another productId are untouched, and the product catalog is
unchanged by both operations. -/
theorem mutation_frame_witness :
    ((DB.mk [⟨7, "Pizza", 10, none, none, none, true, 0⟩]
        [⟨1, "A", "a@x", none, none, [], [⟨"q", "Soda", 5, 1, 2⟩], 0⟩,
         ⟨2, "B", "b@x", none, none, [], [⟨"p", "Chips", 3, 2, 1⟩], 0⟩]).users.map
        User.id).Nodup
    ∧ ((addCartHandler (.valid 1) "p" "Chips" 3 4 ⟨9, 9⟩
        (DB.mk [⟨7, "Pizza", 10, none, none, none, true, 0⟩]
          [⟨1, "A", "a@x", none, none, [], [⟨"q", "Soda", 5, 1, 2⟩], 0⟩,
           ⟨2, "B", "b@x", none, none, [], [⟨"p", "Chips", 3, 2, 1⟩], 0⟩])).2.products
        = [⟨7, "Pizza", 10, none, none, none, true, 0⟩])
    ∧ ((addCartHandler (.valid 1) "p" "Chips" 3 4 ⟨9, 9⟩
        (DB.mk [⟨7, "Pizza", 10, none, none, none, true, 0⟩]
          [⟨1, "A", "a@x", none, none, [], [⟨"q", "Soda", 5, 1, 2⟩], 0⟩,
           ⟨2, "B", "b@x", none, none, [], [⟨"p", "Chips", 3, 2, 1⟩], 0⟩])).2.users[1]?
        = some ⟨2, "B", "b@x", none, none, [], [⟨"p", "Chips", 3, 2, 1⟩], 0⟩)
    ∧ ((placeOrderHandler (.valid 1) ⟨9, 9⟩
        (DB.mk [⟨7, "Pizza", 10, none, none, none, true, 0⟩]
          [⟨1, "A", "a@x", none, none, [], [⟨"q", "Soda", 5, 1, 2⟩], 0⟩,
           ⟨2, "B", "b@x", none, none, [], [⟨"p", "Chips", 3, 2, 1⟩], 0⟩])).2.users[1]?
        = some ⟨2, "B", "b@x", none, none, [], [⟨"p", "Chips", 3, 2, 1⟩], 0⟩)
    ∧ ((addCartHandler (.valid 1) "p" "Chips" 3 4 ⟨9, 9⟩
        (DB.mk [⟨7, "Pizza", 10, none, none, none, true, 0⟩]
          [⟨1, "A", "a@x", none, none, [], [⟨"q", "Soda", 5, 1, 2⟩], 0⟩,
           ⟨2, "B", "b@x", none, none, [], [⟨"p", "Chips", 3, 2, 1⟩], 0⟩])).2.users[0]?.map
        (fun u => u.cart.filter (fun it => it.productId != "p"))
        = some [⟨"q", "Soda", 5, 1, 2⟩]) := by
  have h0 := mutation_frame
    (DB.mk [⟨7, "Pizza", 10, none, none, none, true, 0⟩]
      [⟨1, "A", "a@x", none, none, [], [⟨"q", "Soda", 5, 1, 2⟩], 0⟩,
       ⟨2, "B", "b@x", none, none, [], [⟨"p", "Chips", 3, 2, 1⟩], 0⟩])
    1 "p" "Chips" 3 4 ⟨9, 9⟩ 0 (by decide)
  have h1 := mutation_frame
    (DB.mk [⟨7, "Pizza", 10, none, none, none, true, 0⟩]
      [⟨1, "A", "a@x", none, none, [], [⟨"q", "Soda", 5, 1, 2⟩], 0⟩,
       ⟨2, "B", "b@x", none, none, [], [⟨"p", "Chips", 3, 2, 1⟩], 0⟩])
    1 "p" "Chips" 3 4 ⟨9, 9⟩ 1 (by decide)
  refine ⟨by decide, h1.1, ?_, ?_, ?_⟩
  · exact (h1.2.2.2.2.2 ⟨2, "B", "b@x", none, none, [], [⟨"p", "Chips", 3, 2, 1⟩], 0⟩
      rfl (by decide)).1
  · exact (h1.2.2.2.2.2 ⟨2, "B", "b@x", none, none, [], [⟨"p", "Chips", 3, 2, 1⟩], 0⟩
      rfl (by decide)).2
  · rw [h0.2.2.2.2.1]
    decide

end FunFood
